import Mathlib

/-!
Verification development for the CodeTimeMachine session store.

Shallow embedding of the repository's core:
  * `DatabaseWrapper` (src/unnamed/part_003): the sqlite-backed session store —
    `createSession`, `endSession`, `addEvent`, `addFileSnapshot`, `addDiff`,
    `getEventsInRange`, `getFileStateAtTime`, `applyDiffs`.
  * `PlaybackServer.handlePlay` / `handlePause` (src/unnamed/part_004): the
    playback loop driving a virtual clock over the event log.
  * `FileDatabase.addFileSnapshot` (src/ctm.js): the dependency-free JSON store.
  * `CodeTimeMachineDaemon.handleFileChange` (src/src/daemon.js): the recorder's
    snapshot-capture gate.

Conventions: `Date.now()` is an ambient effect in the source, so every
operation takes the current wall-clock time `now : Nat` explicitly.  SQLite's
`AUTOINCREMENT` rowid is modelled as a per-table counter starting at 1.  The
SHA-256 hex digest from node's `crypto` module is an external library call and
is modelled as an abstract parameter `sha256hex : String → String`.  JSON
payloads (`JSON.stringify(data)`) are modelled as the already-serialised
string.  Strings that only flow through the store unchanged keep Lean's
`String`; the ctm.js store's `substring`-based truncation is modelled over the
string's character list (JS `.substring`/`.length` count UTF-16 units).
-/

/-- Row of the `events` table (src/unnamed/part_003, `createTables`):
`id` AUTOINCREMENT, `session_id`, `timestamp`, `type`, `source`, `data`
(JSON blob), `sequence` (schema comment: "order within same timestamp"). -/
structure EventRow where
  id : Nat
  session_id : Nat
  timestamp : Nat
  type : String
  source : String
  data : String
  sequence : Nat
deriving DecidableEq

/-- Row of the `file_snapshots` table: `id`, `session_id`, `file_path`,
`timestamp`, `content`, `content_hash`, `size`. -/
structure SnapshotRow where
  id : Nat
  session_id : Nat
  file_path : String
  timestamp : Nat
  content : String
  content_hash : String
  size : Nat
deriving DecidableEq

/-- Row of the `diffs` table: `id`, `session_id`, `file_path`, `timestamp`,
`diff_data` (unified diff text), `line_start`, `line_end`, `chars_added`,
`chars_removed`. -/
structure DiffRow where
  id : Nat
  session_id : Nat
  file_path : String
  timestamp : Nat
  diff_data : String
  line_start : Nat
  line_end : Nat
  chars_added : Nat
  chars_removed : Nat
deriving DecidableEq

/-- Row of the `sessions` table: `id`, `start_time`, `end_time` (NULL while
open), `project_path`. -/
structure SessionRow where
  id : Nat
  start_time : Nat
  end_time : Option Nat
  project_path : String
deriving DecidableEq

/-- The sqlite database state of `DatabaseWrapper`: one list per table in
insertion (rowid) order, plus the per-table AUTOINCREMENT counters. -/
structure DB where
  sessions : List SessionRow
  events : List EventRow
  file_snapshots : List SnapshotRow
  diffs : List DiffRow
  nextSessionId : Nat
  nextEventId : Nat
  nextSnapshotId : Nat
  nextDiffId : Nat
deriving DecidableEq

/-- A freshly created database: empty tables, AUTOINCREMENT counters at 1. -/
def emptyDB : DB :=
  { sessions := [], events := [], file_snapshots := [], diffs := []
  , nextSessionId := 1, nextEventId := 1, nextSnapshotId := 1, nextDiffId := 1 }

/-- `DatabaseWrapper.createSession(projectPath, ...)`: INSERT INTO sessions
with `start_time = Date.now()` and NULL `end_time`; returns the new rowid. -/
def createSession (db : DB) (now : Nat) (projectPath : String) : DB × Nat :=
  let row : SessionRow :=
    { id := db.nextSessionId, start_time := now, end_time := none
    , project_path := projectPath }
  ({ db with sessions := db.sessions ++ [row]
           , nextSessionId := db.nextSessionId + 1 }, db.nextSessionId)

/-- `DatabaseWrapper.endSession(sessionId)`: UPDATE sessions SET
`end_time = Date.now()` WHERE `id = sessionId`. -/
def endSession (db : DB) (now sessionId : Nat) : DB :=
  { db with sessions := db.sessions.map fun s =>
      if s.id = sessionId then { s with end_time := some now } else s }

/-- The row `addEvent` inserts: `timestamp = Date.now()`, all other columns
from the arguments (`data` already JSON-serialised). -/
def mkEventRow (db : DB) (now sessionId : Nat) (ty source data : String)
    (sequence : Nat) : EventRow :=
  { id := db.nextEventId, session_id := sessionId, timestamp := now
  , type := ty, source := source, data := data, sequence := sequence }

/-- `DatabaseWrapper.addEvent(sessionId, type, source, data, sequence)`:
INSERT INTO events; the `sequence` column is the caller's argument (the JS
signature declares `sequence = 0` as its default).  Returns the new rowid. -/
def addEvent (db : DB) (now sessionId : Nat) (ty source data : String)
    (sequence : Nat) : DB × Nat :=
  ({ db with events := db.events ++ [mkEventRow db now sessionId ty source data sequence]
           , nextEventId := db.nextEventId + 1 }, db.nextEventId)

/-- `addEvent` as every caller in the repository invokes it (daemon.js always
omits the `sequence` argument, so it takes its JS default value 0). -/
def addEventDefault (db : DB) (now sessionId : Nat) (ty source data : String) :
    DB × Nat :=
  addEvent db now sessionId ty source data 0

/-- The row `addFileSnapshot` inserts: `content` is the cleaned string,
`content_hash` its SHA-256 hex digest (abstract `sha256hex`), `size` its
UTF-8 byte length (`Buffer.byteLength(cleanContent, 'utf8')`). -/
def mkSnapshotRow (sha256hex : String → String) (db : DB)
    (now sessionId : Nat) (filePath content : String) : SnapshotRow :=
  { id := db.nextSnapshotId, session_id := sessionId, file_path := filePath
  , timestamp := now, content := content, content_hash := sha256hex content
  , size := content.utf8ByteSize }

/-- `DatabaseWrapper.addFileSnapshot(sessionId, filePath, content)`:
`timestamp = Date.now()`; hashes the (already string-typed) content with
SHA-256 and stores content, hash and UTF-8 byte size in one INSERT. -/
def addFileSnapshot (sha256hex : String → String) (db : DB)
    (now sessionId : Nat) (filePath content : String) : DB × Nat :=
  ({ db with
      file_snapshots :=
        db.file_snapshots ++ [mkSnapshotRow sha256hex db now sessionId filePath content]
    , nextSnapshotId := db.nextSnapshotId + 1 }, db.nextSnapshotId)

/-- The row `addDiff` inserts. -/
def mkDiffRow (db : DB) (now sessionId : Nat) (filePath diffData : String)
    (lineStart lineEnd charsAdded charsRemoved : Nat) : DiffRow :=
  { id := db.nextDiffId, session_id := sessionId, file_path := filePath
  , timestamp := now, diff_data := diffData, line_start := lineStart
  , line_end := lineEnd, chars_added := charsAdded
  , chars_removed := charsRemoved }

/-- `DatabaseWrapper.addDiff(sessionId, filePath, diffData, ...)`: a single
unconditional INSERT INTO diffs with `timestamp = Date.now()`; the source
performs no check of any kind before inserting. -/
def addDiff (db : DB) (now sessionId : Nat) (filePath diffData : String)
    (lineStart lineEnd charsAdded charsRemoved : Nat) : DB × Nat :=
  ({ db with
      diffs := db.diffs ++ [mkDiffRow db now sessionId filePath diffData
                              lineStart lineEnd charsAdded charsRemoved]
    , nextDiffId := db.nextDiffId + 1 }, db.nextDiffId)

/-- Stand-in value for the external SHA-256 digest in concrete scenarios
whose claims do not depend on the hash value. -/
def demoHash : String → String := fun _ => "h"

/-- WHERE clause of `getEventsInRange`: `session_id = ? AND timestamp BETWEEN
? AND ?` (SQL BETWEEN is inclusive on both ends). -/
def matchesRange (sessionId lo hi : Nat) (e : EventRow) : Bool :=
  e.session_id == sessionId && decide (lo ≤ e.timestamp) && decide (e.timestamp ≤ hi)

/-- The sort key order of `ORDER BY timestamp, sequence`: lexicographic on
the pair (timestamp, sequence). -/
def keyLE (a b : EventRow) : Prop :=
  a.timestamp < b.timestamp ∨ (a.timestamp = b.timestamp ∧ a.sequence ≤ b.sequence)

instance (a b : EventRow) : Decidable (keyLE a b) := by
  unfold keyLE; infer_instance

/-- Boolean form of `keyLE`, used by the executable sort. -/
def keyLEb (a b : EventRow) : Bool :=
  decide (a.timestamp < b.timestamp) ||
    (a.timestamp == b.timestamp && decide (a.sequence ≤ b.sequence))

/-- Insert into a sorted list, keeping earlier-inserted elements first among
equal keys. -/
def insertByKey {α : Type} (le : α → α → Bool) (a : α) : List α → List α
  | [] => [a]
  | b :: l => if le a b then a :: b :: l else b :: insertByKey le a l

/-- Stable insertion sort: for rows already in insertion (rowid) order this
keeps equal-key rows in rowid order. -/
def sortByKey {α : Type} (le : α → α → Bool) : List α → List α
  | [] => []
  | a :: l => insertByKey le a (sortByKey le l)

/-- `DatabaseWrapper.getEventsInRange(sessionId, startTime, endTime)` as a
relation on possible result sets.  SQL's `ORDER BY timestamp, sequence` fixes
only that the result is some permutation of the matching rows that is sorted
by the key; the relative order of rows with equal (timestamp, sequence) is
implementation-defined, so the query denotes any such list. -/
def isRangeResult (db : DB) (sessionId lo hi : Nat) (res : List EventRow) : Prop :=
  res.Perm (db.events.filter (matchesRange sessionId lo hi)) ∧
    res.Sorted keyLE

/-- One concrete execution of `getEventsInRange`, used where later code
consumes the query's result: the matching rows, stable-sorted by
(timestamp, sequence).  (SQLite fixes no particular order among equal keys;
theorems built on this definition do not depend on the choice.) -/
def getEventsInRangeD (db : DB) (sessionId lo hi : Nat) : List EventRow :=
  sortByKey keyLEb (db.events.filter (matchesRange sessionId lo hi))

/-- WHERE clause of the snapshot lookup inside `getFileStateAtTime`:
`session_id = ? AND file_path = ? AND timestamp <= ?`. -/
def snapMatches (sessionId : Nat) (filePath : String) (t : Nat)
    (s : SnapshotRow) : Bool :=
  s.session_id == sessionId && s.file_path == filePath && decide (s.timestamp ≤ t)

/-- `ORDER BY timestamp DESC LIMIT 1` over the matching snapshots: the row
with maximal timestamp; among equal timestamps the later row (sqlite's
index scan visits equal-key entries in rowid order, so the DESC scan yields
the largest rowid first). -/
def latestSnapshot (db : DB) (sessionId : Nat) (filePath : String) (t : Nat) :
    Option SnapshotRow :=
  (db.file_snapshots.filter (snapMatches sessionId filePath t)).foldl
    (fun acc s =>
      match acc with
      | none => some s
      | some a => if a.timestamp ≤ s.timestamp then some s else some a)
    none

/-- WHERE clause of the diff lookup inside `getFileStateAtTime`:
`session_id = ? AND file_path = ? AND timestamp > ? AND timestamp <= ?`. -/
def diffMatches (sessionId : Nat) (filePath : String) (lo hi : Nat)
    (d : DiffRow) : Bool :=
  d.session_id == sessionId && d.file_path == filePath &&
    decide (lo < d.timestamp) && decide (d.timestamp ≤ hi)

/-- Boolean timestamp order for the diffs' `ORDER BY timestamp`. -/
def diffTsLE (a b : DiffRow) : Bool :=
  decide (a.timestamp ≤ b.timestamp)

/-- `DatabaseWrapper.applyDiffs(content, diffs)`: the source is an
unimplemented TODO ("Implement diff application logic — for now, return the
base content"); it ignores the diffs and returns the base content. -/
def applyDiffs (content : String) (diffs : List DiffRow) : String :=
  content

/-- The object `getFileStateAtTime` returns:
`{ snapshot, diffs, reconstructedContent }`. -/
structure FileState where
  snapshot : SnapshotRow
  diffs : List DiffRow
  reconstructedContent : String
deriving DecidableEq

/-- `DatabaseWrapper.getFileStateAtTime(sessionId, filePath, timestamp)`:
take the most recent snapshot at or before the target (NULL → null result),
collect the diffs strictly after the snapshot and at or before the target
ordered by timestamp, and pair them with `applyDiffs`'s result. -/
def getFileStateAtTime (db : DB) (sessionId : Nat) (filePath : String)
    (t : Nat) : Option FileState :=
  match latestSnapshot db sessionId filePath t with
  | none => none
  | some snap =>
      let ds := sortByKey diffTsLE
        (db.diffs.filter (diffMatches sessionId filePath snap.timestamp t))
      some { snapshot := snap, diffs := ds
           , reconstructedContent := applyDiffs snap.content ds }

/-- `SELECT * FROM sessions ORDER BY id DESC LIMIT 1` in `handlePlay`:
the session with the largest id, i.e. the last inserted row. -/
def latestSession (db : DB) : Option SessionRow :=
  db.sessions.foldl
    (fun acc s =>
      match acc with
      | none => some s
      | some a => if a.id ≤ s.id then some s else some a)
    none

/-- The inner `while` of `handlePlay`'s interval callback: emit every event
at the front of the remaining list whose timestamp is at or before the
virtual clock; returns (emitted events, remaining events). -/
def emitDue (cur : Nat) : List EventRow → List EventRow × List EventRow
  | [] => ([], [])
  | e :: rest =>
      if e.timestamp ≤ cur then
        let p := emitDue cur rest
        (e :: p.1, p.2)
      else ([], e :: rest)

/-- The `setInterval` loop of `handlePlay`: each tick emits the due events,
then advances the virtual clock by `100 * speed`, and stops (clearing the
interval and sending `playback_complete`) once the clock has passed the end
time or every fetched event has been sent.  The loop is driven by wall-clock
ticks; `fuel` bounds the number of ticks modelled (`false` in the second
component means the loop was interrupted before completing, e.g. by
`handlePause` clearing the interval after that many ticks). -/
def playLoop (endTime speed : Nat) : Nat → Nat → List EventRow → List EventRow × Bool
  | 0, _, _ => ([], false)
  | fuel + 1, cur, events =>
      let p := emitDue cur events
      let cur2 := cur + 100 * speed
      if endTime < cur2 || p.2.isEmpty then (p.1, true)
      else
        let q := playLoop endTime speed fuel cur2 p.2
        (p.1 ++ q.1, q.2)

/-- `PlaybackServer.handlePlay(ws, startTime, speed)`: look up the latest
session (none → error, nothing emitted), set
`endTime = session.end_time || Date.now()`, fetch the events in
`[startTime, endTime]` and run the interval loop from `currentTime =
startTime`.  Returns the emitted events in order and whether
`playback_complete` was sent. -/
def handlePlay (db : DB) (now startTime speed fuel : Nat) :
    Option (List EventRow × Bool) :=
  match latestSession db with
  | none => none
  | some s =>
      let endTime := s.end_time.getD now
      let events := getEventsInRangeD db s.id startTime endTime
      some (playLoop endTime speed fuel startTime events)

/-- `PlaybackServer.handlePause(ws)`: `clearInterval(ws.playInterval)` and
`delete ws.playInterval` — whatever playback state the socket held, it is
discarded; no cursor survives. -/
def handlePause (playInterval : Option Nat) : Option Nat :=
  none

/-- Snapshot entry of the JSON `FileDatabase` in src/ctm.js:
`{ timestamp, content, size, lines }`.  JS strings are sequences of UTF-16
units, so `content` is modelled as the character list that
`content.substring(0, 50000)` slices. -/
structure CtmSnapshot where
  timestamp : Nat
  content : List Char
  size : Nat
  lines : Nat
deriving DecidableEq

/-- Per-path entry of `FileDatabase.data.files`: `{ snapshots, changes }`. -/
structure CtmFileEntry where
  snapshots : List CtmSnapshot
  changes : Nat
deriving DecidableEq

/-- `FileDatabase.data.files`, a JS object keyed by file path. -/
def CtmFiles : Type := List (String × CtmFileEntry)

/-- Look up a path's entry in `data.files`. -/
def ctmLookup (files : CtmFiles) (filePath : String) : Option CtmFileEntry :=
  match files.find? (fun p => p.1 == filePath) with
  | none => none
  | some p => some p.2

/-- Replace (or create) a path's entry in `data.files`. -/
def ctmStore (files : CtmFiles) (filePath : String) (entry : CtmFileEntry) :
    CtmFiles :=
  match files with
  | [] => [(filePath, entry)]
  | p :: rest =>
      if p.1 == filePath then (filePath, entry) :: rest
      else p :: ctmStore rest filePath entry

/-- `FileDatabase.addFileSnapshot(filePath, content)` (src/ctm.js): ensures
the path's entry exists, then pushes
`{ timestamp: Date.now(), content: content.substring(0, 50000),
   size: content.length, lines: content.split('\n').length }`
and increments `changes`.  The comment in the source reads "Limit content
size": content beyond 50000 UTF-16 units is dropped, while `size` records
the original length. -/
def ctmAddFileSnapshot (files : CtmFiles) (now : Nat) (filePath : String)
    (content : List Char) : CtmFiles :=
  let entry := (ctmLookup files filePath).getD { snapshots := [], changes := 0 }
  let snap : CtmSnapshot :=
    { timestamp := now, content := content.take 50000, size := content.length
    , lines := (content.filter (· = '\n')).length + 1 }
  ctmStore files filePath
    { snapshots := entry.snapshots ++ [snap], changes := entry.changes + 1 }

/-- `CodeTimeMachineDaemon.handleFileChange` (src/src/daemon.js), its
database-visible part once the watcher has delivered a text file's content:
always `addEvent('file_edit', relativePath, {...})` (the `sequence` argument
is omitted, taking its default 0), then `addFileSnapshot` only when
`content.length < 100000`; larger contents are skipped with no error and no
record. -/
def handleFileChange (sha256hex : String → String) (db : DB)
    (now sessionId : Nat) (relativePath : String) (content : String) : DB :=
  let db1 := (addEventDefault db now sessionId "file_edit" relativePath
                "action:change").1
  if content.length < 100000 then
    (addFileSnapshot sha256hex db1 now sessionId relativePath content).1
  else db1

/-- One write operation against the `DatabaseWrapper` store, as issued by the
code in the repository (the daemon and CLI always call `addEvent` without a
`sequence` argument; `Op.addEventSeq` also covers hypothetical callers that
pass one). -/
inductive Op where
  | createSession (now : Nat) (projectPath : String)
  | endSession (now sessionId : Nat)
  | addEventSeq (now sessionId : Nat) (ty source data : String) (sequence : Nat)
  | addEventDefault (now sessionId : Nat) (ty source data : String)
  | addFileSnapshot (now sessionId : Nat) (filePath content : String)
  | addDiff (now sessionId : Nat) (filePath diffData : String)
      (lineStart lineEnd charsAdded charsRemoved : Nat)

/-- Apply one operation to the database state. -/
def applyOp (sha256hex : String → String) (db : DB) : Op → DB
  | Op.createSession now p => (createSession db now p).1
  | Op.endSession now sid => endSession db now sid
  | Op.addEventSeq now sid ty src data seq => (addEvent db now sid ty src data seq).1
  | Op.addEventDefault now sid ty src data => (addEventDefault db now sid ty src data).1
  | Op.addFileSnapshot now sid p c => (addFileSnapshot sha256hex db now sid p c).1
  | Op.addDiff now sid p dd ls le2 ca cr => (addDiff db now sid p dd ls le2 ca cr).1

/-- Run a sequence of operations from a starting state. -/
def runOps (sha256hex : String → String) (ops : List Op) (db : DB) : DB :=
  ops.foldl (applyOp sha256hex) db

/-- Snapshot integrity: every stored snapshot row carries the SHA-256 hex
digest of exactly the content string it stores, and the UTF-8 byte length of
that same string. -/
def SnapshotsOk (sha256hex : String → String) (db : DB) : Prop :=
  ∀ r ∈ db.file_snapshots,
    r.content_hash = sha256hex r.content ∧ r.size = r.content.utf8ByteSize

/-- Scenario store for the reconstruction claims: checkpoint of `a.js` with
content "x" at t=1000, a diff at t=1500 (patch appending "y"), a diff at
t=2000 (patch appending "z"), all in session 1. -/
def c1db : DB :=
  let d0 := (createSession emptyDB 900 "/p").1
  let d1 := (addFileSnapshot demoHash d0 1000 1 "a.js" "x").1
  let d2 := (addDiff d1 1500 1 "a.js" "+y" 1 1 1 0).1
  (addDiff d2 2000 1 "a.js" "+z" 1 1 1 0).1

/-- Scenario store for the sequence-number claims: session 1 with two events
appended exactly as the daemon does (no `sequence` argument), both at
timestamp 5000 — first an edit of `a.js`, then a create of `b.js`. -/
def c3db : DB :=
  let d0 := (createSession emptyDB 0 "/p").1
  let d1 := (addEventDefault d0 5000 1 "file_edit" "a.js" "edit-a").1
  (addEventDefault d1 5000 1 "file_create" "b.js" "create-b").1

/-- The first event of `c3db` (the edit of `a.js`). -/
def c3edit : EventRow :=
  { id := 1, session_id := 1, timestamp := 5000, type := "file_edit"
  , source := "a.js", data := "edit-a", sequence := 0 }

/-- The second event of `c3db` (the create of `b.js`). -/
def c3create : EventRow :=
  { id := 2, session_id := 1, timestamp := 5000, type := "file_create"
  , source := "b.js", data := "create-b", sequence := 0 }

/-- Scenario store for the playback claim: session 1 recorded over
[0, 1000] (ended at t=1000) holding a single event at t=950. -/
def c4db : DB :=
  let d0 := (createSession emptyDB 0 "/p").1
  let d1 := (addEventDefault d0 950 1 "file_edit" "a.js" "e").1
  endSession d1 1000 1

/-- Scenario store for the pause/resume claim: session 1 over [0, 1000]
with events at t=0 and t=1000. -/
def c8db : DB :=
  let d0 := (createSession emptyDB 0 "/p").1
  let d1 := (addEventDefault d0 0 1 "file_edit" "a.js" "e1").1
  let d2 := (addEventDefault d1 1000 1 "file_edit" "b.js" "e2").1
  endSession d2 1000 1

/-- The first event of `c8db`. -/
def c8e1 : EventRow :=
  { id := 1, session_id := 1, timestamp := 0, type := "file_edit"
  , source := "a.js", data := "e1", sequence := 0 }

/-- The second event of `c8db`. -/
def c8e2 : EventRow :=
  { id := 2, session_id := 1, timestamp := 1000, type := "file_edit"
  , source := "b.js", data := "e2", sequence := 0 }

/-- The event list `handlePlay` fetches for `c8db` over [0, 1000]. -/
def c8evs : List EventRow := getEventsInRangeD c8db 1 0 1000

/-- An oversized content for the size-cap claim: 50001 repetitions of 'a'. -/
def c5content : List Char := List.replicate 50001 'a'

/-- The ctm.js store after snapshotting the oversized content. -/
def c5files : CtmFiles := ctmAddFileSnapshot [] 1000 "big.txt" c5content

/-- Store with a session but no snapshots, for the missing-anchor claim. -/
def c6db : DB := (createSession emptyDB 0 "/p").1

/-- Store whose only session has been ended (end time 100), for the
append-after-close claim. -/
def c7db : DB := endSession (createSession emptyDB 0 "/p").1 100 1

/-- Store with one checkpoint of `a.js` ("x" at t=1000) and no diffs, for
the reconstruction base-case witness. -/
def c9db : DB :=
  (addFileSnapshot demoHash (createSession emptyDB 0 "/p").1 1000 1 "a.js" "x").1

/-- The snapshot row stored in `c9db`. -/
def c9snap : SnapshotRow :=
  { id := 1, session_id := 1, file_path := "a.js", timestamp := 1000
  , content := "x", content_hash := "h", size := 1 }

/-- C1: the spec requires reconstruction to apply every diff in
(checkpoint.timestamp, t] on top of the anchor checkpoint (scenario:
"x" at 1200, "xy" at 1700, "xyz" at 2500).  The source's `applyDiffs` is an
unimplemented TODO returning the base content, so `getFileStateAtTime`
returns the diffs in its `diffs` field but never applies them: the
reconstructed content is "x" at all three query times, not "xy"/"xyz". -/
theorem c1_reconstruction_ignores_diffs :
    ((getFileStateAtTime c1db 1 "a.js" 1200).map fun st => st.reconstructedContent)
        = some "x" ∧
    ((getFileStateAtTime c1db 1 "a.js" 1700).map fun st => st.reconstructedContent)
        = some "x" ∧
    ((getFileStateAtTime c1db 1 "a.js" 1700).map fun st => st.reconstructedContent)
        ≠ some "xy" ∧
    ((getFileStateAtTime c1db 1 "a.js" 2500).map fun st => st.reconstructedContent)
        = some "x" ∧
    ((getFileStateAtTime c1db 1 "a.js" 2500).map fun st => st.reconstructedContent)
        ≠ some "xyz" ∧
    ((getFileStateAtTime c1db 1 "a.js" 1700).map fun st => st.diffs.length)
        = some 1 ∧
    ((getFileStateAtTime c1db 1 "a.js" 2500).map fun st => st.diffs.length)
        = some 2 := by
  decide

/-- C2: the spec requires the log to assign strictly increasing, gap-free
sequence numbers on append.  `addEvent`'s `sequence` column is a caller
argument defaulting to 0 and no caller in the repository ever passes it, so
two daemon-style appends both store sequence 0 (while the AUTOINCREMENT
rowids are 1, 2). -/
theorem c2_sequence_stuck_at_zero :
    (c3db.events.map fun e => e.sequence) = [0, 0] ∧
    (c3db.events.map fun e => e.id) = [1, 2] := by
  decide

/-- C3: both equal-timestamp events are stored with sequence 0, so the keys
of `ORDER BY timestamp, sequence` coincide and the reversed list
[create(b.js), edit(a.js)] is a valid result of `range(5000, 5000)` — the
query's ordering does not reproduce append order. -/
theorem c3_reversed_range_result_is_valid :
    c3db.events = [c3edit, c3create] ∧
    c3edit.sequence = 0 ∧ c3create.sequence = 0 ∧
    isRangeResult c3db 1 5000 5000 [c3create, c3edit] := by
  refine ⟨by decide, by decide, by decide, ?_⟩
  unfold isRangeResult
  constructor
  · have hf : c3db.events.filter (matchesRange 1 5000 5000) = [c3edit, c3create] := by
      decide
    rw [hf]
    exact List.Perm.swap c3edit c3create []
  · decide

/-- C4: the playback loop advances the virtual clock only after emitting the
events already due, and completes as soon as the clock passes the session
end.  Playing `c4db` (session over [0, 1000], one event at t=950) from
t=0 at speed 20 sends `playback_complete` without emitting the event:
after the first tick the clock jumps from 0 to 2000 > 1000 and the loop
stops, though the event was fetched for the range. -/
theorem c4_playback_skips_tail_event :
    handlePlay c4db 2000 0 20 5 = some ([], true) ∧
    (c4db.events.filter (matchesRange 1 0 1000)).length = 1 := by
  decide

/-- Looking up the path just stored by `ctmStore` returns the stored entry. -/
theorem ctmLookup_ctmStore (files : CtmFiles) (p : String) (e : CtmFileEntry) :
    ctmLookup (ctmStore files p e) p = some e := by
  induction files with
  | nil => simp [ctmStore, ctmLookup, List.find?]
  | cons q rest ih =>
      by_cases hq : q.1 == p
      · simp [ctmStore, ctmLookup, List.find?, hq]
      · simp only [ctmStore, hq, Bool.false_eq_true, if_false]
        simpa [ctmLookup, List.find?, hq] using ih

/-- C5 counterexample: the claim says content above the size cap is rejected
with `ContentTooLarge` and nothing is stored, and that stored content is
never a truncation of the input.  `FileDatabase.addFileSnapshot` (src/ctm.js)
instead succeeds on a 50001-character content and persists only its first
50000 characters (while recording the original length as `size`) — a silent
truncation, with no error anywhere in the code. -/
theorem c5_counterexample_silent_truncation :
    ctmLookup c5files "big.txt" =
      some { snapshots := [{ timestamp := 1000, content := c5content.take 50000
                           , size := c5content.length
                           , lines := (c5content.filter (· = '\n')).length + 1 }]
           , changes := 1 } ∧
    c5content.take 50000 ≠ c5content := by
  constructor
  · rfl
  · intro h
    have hl := congrArg List.length h
    rw [List.length_take] at hl
    simp only [c5content, List.length_replicate] at hl
    omega

/-- C5 amended: no `ContentTooLarge` error exists.  The ctm.js store always
succeeds, pushing a snapshot whose content is the first 50000 characters of
the input and whose `size` is the input's original length; the sqlite
daemon's `handleFileChange` stores no snapshot at all (and raises no error)
when the content length is at least 100000. -/
theorem c5_amended_cap_behaviour :
    (∀ (files : CtmFiles) (now : Nat) (p : String) (c : List Char),
      ∃ e : CtmFileEntry,
        ctmLookup (ctmAddFileSnapshot files now p c) p = some e ∧
        e.snapshots.getLast? = some
          { timestamp := now, content := c.take 50000, size := c.length
          , lines := (c.filter (· = '\n')).length + 1 }) ∧
    (∀ (sha256hex : String → String) (db : DB) (now sid : Nat)
        (p content : String),
      100000 ≤ content.length →
      (handleFileChange sha256hex db now sid p content).file_snapshots
        = db.file_snapshots) := by
  constructor
  · intro files now p c
    unfold ctmAddFileSnapshot
    exact ⟨_, ctmLookup_ctmStore _ _ _, by simp⟩
  · intro sha256hex db now sid p content h
    unfold handleFileChange
    have hn : ¬ content.length < 100000 := Nat.not_lt.mpr h
    simp [hn, addEventDefault, addEvent]

/-- A content string of exactly 100000 characters, for the witness below. -/
def c5big : String := String.mk (List.replicate 100000 'a')

/-- Witness for the amended C5 statement at concrete inputs. -/
theorem c5_amended_cap_behaviour_witness :
    (∃ e : CtmFileEntry,
       ctmLookup (ctmAddFileSnapshot [] 5 "f.txt" ['a']) "f.txt" = some e ∧
       e.snapshots.getLast? = some
         { timestamp := 5, content := (['a'] : List Char).take 50000
         , size := (['a'] : List Char).length
         , lines := (((['a'] : List Char).filter (· = '\n')).length + 1) }) ∧
    (handleFileChange demoHash emptyDB 7 1 "g.txt" c5big).file_snapshots
      = emptyDB.file_snapshots :=
  ⟨c5_amended_cap_behaviour.1 [] 5 "f.txt" ['a'],
   c5_amended_cap_behaviour.2 demoHash emptyDB 7 1 "g.txt" c5big (by
     show 100000 ≤ c5big.data.length
     rw [show c5big.data = List.replicate 100000 'a' from rfl,
         List.length_replicate])⟩

/-- C6 counterexample: the claim says `addDiff` for a path with no prior
checkpoint fails with `NoAnchorCheckpoint` and persists nothing.  On a store
with no snapshots at all, `addDiff` succeeds and persists the diff row. -/
theorem c6_counterexample_diff_without_anchor :
    c6db.file_snapshots = [] ∧
    ((addDiff c6db 100 1 "a.js" "+x" 1 1 1 0).1).diffs.map
        (fun d => (d.id, d.file_path)) = [(1, "a.js")] := by
  decide

/-- C6 amended: `addDiff` performs no anchor check; even when no snapshot
for the path exists in the store, it appends the diff row unconditionally
(no `NoAnchorCheckpoint` error exists in the code). -/
theorem c6_amended_addDiff_unconditional (db : DB) (now sid : Nat)
    (p dd : String) (ls le2 ca cr : Nat)
    (h : ∀ s ∈ db.file_snapshots, s.file_path ≠ p) :
    (addDiff db now sid p dd ls le2 ca cr).1.diffs
      = db.diffs ++ [mkDiffRow db now sid p dd ls le2 ca cr] := rfl

/-- Witness for the amended C6 statement at a concrete input. -/
theorem c6_amended_addDiff_unconditional_witness :
    (addDiff c6db 100 1 "a.js" "+x" 1 1 1 0).1.diffs
      = c6db.diffs ++ [mkDiffRow c6db 100 1 "a.js" "+x" 1 1 1 0] :=
  c6_amended_addDiff_unconditional c6db 100 1 "a.js" "+x" 1 1 1 0 (by decide)

/-- C7 counterexample: the claim says an append after the owning session
ended fails with `SessionClosed` and leaves the log unchanged.  After
`endSession` has set the end time, `addEvent` succeeds and the event is
stored. -/
theorem c7_counterexample_append_after_close :
    (c7db.sessions.map fun s => s.end_time) = [some 100] ∧
    ((addEvent c7db 200 1 "file_edit" "a.js" "d" 0).1).events.map
        (fun e => e.id) = [1] := by
  decide

/-- C7 amended: `addEvent` never inspects the session's end time; an append
to a session whose end time is already set succeeds and appends the event
(no `SessionClosed` error exists in the code). -/
theorem c7_amended_addEvent_ignores_session_end (db : DB) (now sid : Nat)
    (ty src data : String) (seq : Nat) (s : SessionRow)
    (hs : s ∈ db.sessions) (hid : s.id = sid) (hend : s.end_time ≠ none) :
    (addEvent db now sid ty src data seq).1.events
      = db.events ++ [mkEventRow db now sid ty src data seq] := rfl

/-- Witness for the amended C7 statement at a concrete input. -/
theorem c7_amended_addEvent_ignores_session_end_witness :
    (addEvent c7db 200 1 "file_edit" "a.js" "d" 0).1.events
      = c7db.events ++ [mkEventRow c7db 200 1 "file_edit" "a.js" "d" 0] :=
  c7_amended_addEvent_ignores_session_end c7db 200 1 "file_edit" "a.js" "d" 0
    { id := 1, start_time := 0, end_time := some 100, project_path := "/p" }
    (by decide) (by decide) (by decide)

/-- C8 counterexample: pausing after the first tick of a playback of `c8db`
from t=0 leaves the event at t=0 emitted and the cursor discarded
(`handlePause` clears everything it holds); the only way to continue is a
new play request, and playing again from t=0 emits the full range, so the
first event is emitted twice across the pause/continue pair. -/
theorem c8_counterexample_pause_then_replay_duplicates :
    handlePause (some 7) = none ∧
    playLoop 1000 1 1 0 c8evs = ([c8e1], false) ∧
    handlePlay c8db 2000 0 1 12 = some ([c8e1, c8e2], true) ∧
    ([c8e1] ++ [c8e1, c8e2]).count c8e1 = 2 := by
  decide

/-- C8 amended: `handlePause` merely clears the interval — no cursor
survives on the server, and there is no resume operation; playback continues
only through a fresh `handlePlay`, which re-runs the loop from its own start
time, so every event an interrupted run had already emitted is emitted again
by an equally long or longer run with the same parameters. -/
theorem c8_amended_pause_discards_and_replay_reemits :
    (∀ w : Option Nat, handlePause w = none) ∧
    (∀ (endTime speed k m cur : Nat) (evs : List EventRow) (e : EventRow),
      e ∈ (playLoop endTime speed k cur evs).1 →
      e ∈ (playLoop endTime speed (k + m) cur evs).1) := by
  constructor
  · intro w
    rfl
  · intro endTime speed k
    induction k with
    | zero =>
        intro m cur evs e h
        simp [playLoop] at h
    | succ n ih =>
        intro m cur evs e h
        have hm : n + 1 + m = (n + m) + 1 := by omega
        rw [hm]
        simp only [playLoop] at h ⊢
        by_cases hc : (decide (endTime < cur + 100 * speed)
            || (emitDue cur evs).2.isEmpty) = true
        · simp only [hc, if_true] at h ⊢
          exact h
        · simp only [hc, if_false] at h ⊢
          rcases List.mem_append.mp h with h1 | h2
          · exact List.mem_append.mpr (Or.inl h1)
          · exact List.mem_append.mpr (Or.inr (ih m _ _ e h2))

/-- Witness for the amended C8 statement: the event emitted before the pause
is re-emitted by the longer rerun with the same parameters. -/
theorem c8_amended_witness :
    c8e1 ∈ (playLoop 1000 1 (1 + 11) 0 c8evs).1 :=
  c8_amended_pause_discards_and_replay_reemits.2 1000 1 1 11 0 c8evs c8e1
    (by decide)

/-- C9: base cases of reconstruction.  If no snapshot for the path has
timestamp at or before the target, `getFileStateAtTime` returns none; and if
the selected latest snapshot has no diff strictly after it up to the target,
the result carries an empty diff list and exactly the snapshot's content. -/
theorem c9_reconstruction_base_cases :
    (∀ (db : DB) (sid : Nat) (p : String) (t : Nat),
      (∀ s ∈ db.file_snapshots, snapMatches sid p t s = false) →
      getFileStateAtTime db sid p t = none) ∧
    (∀ (db : DB) (sid : Nat) (p : String) (t : Nat) (c : SnapshotRow),
      latestSnapshot db sid p t = some c →
      (∀ d ∈ db.diffs, diffMatches sid p c.timestamp t d = false) →
      getFileStateAtTime db sid p t =
        some { snapshot := c, diffs := []
             , reconstructedContent := c.content }) := by
  constructor
  · intro db sid p t h
    have hf : db.file_snapshots.filter (snapMatches sid p t) = [] :=
      List.filter_eq_nil_iff.mpr (by intro a ha; simp [h a ha])
    unfold getFileStateAtTime latestSnapshot
    rw [hf]
    rfl
  · intro db sid p t c hlatest hdiffs
    have hf : db.diffs.filter (diffMatches sid p c.timestamp t) = [] :=
      List.filter_eq_nil_iff.mpr (by intro a ha; simp [hdiffs a ha])
    unfold getFileStateAtTime
    rw [hlatest]
    simp [hf, sortByKey, applyDiffs]

/-- Witness for the C9 base cases at concrete inputs: an empty store yields
none, and a store holding one checkpoint and no diffs yields exactly that
checkpoint's content. -/
theorem c9_reconstruction_base_cases_witness :
    getFileStateAtTime emptyDB 1 "a.js" 5 = none ∧
    getFileStateAtTime c9db 1 "a.js" 1200 =
      some { snapshot := c9snap, diffs := []
           , reconstructedContent := c9snap.content } :=
  ⟨c9_reconstruction_base_cases.1 emptyDB 1 "a.js" 5 (by decide),
   c9_reconstruction_base_cases.2 c9db 1 "a.js" 1200 c9snap (by decide)
     (by decide)⟩

/-- Every operation preserves snapshot integrity: only `addFileSnapshot`
touches the snapshot table, and the row it appends hashes and measures the
very content string it stores. -/
theorem snapshotsOk_applyOp (sha256hex : String → String) (db : DB) (op : Op)
    (h : SnapshotsOk sha256hex db) :
    SnapshotsOk sha256hex (applyOp sha256hex db op) := by
  cases op with
  | createSession now p => exact fun r hr => h r hr
  | endSession now sid => exact fun r hr => h r hr
  | addEventSeq now sid ty src data seq => exact fun r hr => h r hr
  | addEventDefault now sid ty src data => exact fun r hr => h r hr
  | addDiff now sid p dd ls le2 ca cr => exact fun r hr => h r hr
  | addFileSnapshot now sid p c =>
      intro r hr
      have hr2 : r ∈ db.file_snapshots ++ [mkSnapshotRow sha256hex db now sid p c] := hr
      rcases List.mem_append.mp hr2 with h1 | h2
      · exact h r h1
      · have he : r = mkSnapshotRow sha256hex db now sid p c := by
          simpa using h2
        subst he
        exact ⟨rfl, rfl⟩

/-- C10: for every sequence of operations run against a fresh store, every
stored snapshot row's `content_hash` is the digest of exactly the content it
stores, and its `size` is that content's UTF-8 byte length, so a reader can
check any snapshot against its recorded fingerprint and size. -/
theorem c10_snapshot_integrity (sha256hex : String → String) (ops : List Op) :
    SnapshotsOk sha256hex (runOps sha256hex ops emptyDB) := by
  have key : ∀ (l : List Op) (db : DB), SnapshotsOk sha256hex db →
      SnapshotsOk sha256hex (runOps sha256hex l db) := by
    intro l
    induction l with
    | nil => intro db h; exact h
    | cons op rest ih =>
        intro db h
        exact ih (applyOp sha256hex db op) (snapshotsOk_applyOp sha256hex db op h)
  exact key ops emptyDB (by intro r hr; simp [emptyDB] at hr)
